import Mathlib

/-!
Verification of the caching / staleness / fallback service layer of the
MGNREGA district-data backend (`services/mgnrega_service.py`,
`services/data_gov_client.py`, `models.py`).

Embedding conventions:
* Python floats are modelled as exact rationals (`ℚ`); machine floats carry
  no overflow concern in the value ranges involved and all the formulas at
  stake are real-number formulas.
* `datetime` timestamps are modelled as integers counting hours, so that
  `timedelta(hours=24)` is the integer `24`; `datetime.now()` becomes an
  explicit `now : Int` parameter threaded through each function.
* The SQLAlchemy tables are modelled as Lean lists of rows; `query(...).first()`
  is `List.find?`, `ORDER BY year DESC LIMIT 3` is an insertion sort by
  descending year followed by `List.take 3`.
* `db.commit()` either succeeds or raises; this is abstracted by a
  `commitOk : Bool` parameter.  On failure the source calls `db.rollback()`,
  which restores the table to its pre-call contents.
* Python's `x or 0` on a nullable numeric column is `orZero` on `Option ℚ`
  (for a non-null number it is the identity, since `0 or 0 == 0`).
-/

/-- Floor of a rational.  Used to model Python's `int(...)` truncation, which
agrees with the floor on the nonnegative quantities produced by the
sample-data generator, and the integer part taken by `round`. -/
def ratFloor (q : ℚ) : ℤ := ⌊q⌋

/-- Round a rational to the nearest integer, ties to even — the tie-breaking
rule of Python 3's built-in `round`. -/
def roundHalfEven (q : ℚ) : ℤ :=
  let n := ratFloor q
  let frac := q - n
  if frac < 1 / 2 then n
  else if 1 / 2 < frac then n + 1
  else if n % 2 = 0 then n else n + 1

/-- Python's `round(x, 2)`: round to two decimal places. -/
def round2 (q : ℚ) : ℚ := (roundHalfEven (q * 100) : ℚ) / 100

/-- Python's `x or 0` applied to a nullable numeric column. -/
def orZero (x : Option ℚ) : ℚ :=
  match x with
  | some v => v
  | none => 0

/-- A row of the `district_data` table (`models.DistrictData`), minus the
auto-increment `id`.  `last_updated` is nullable in the schema
(`server_default=func.now()` only applies on insert through SQL). -/
structure DistrictData where
  district_code : String
  district_name : String
  state_name : String
  year : Int
  total_job_cards : Int
  active_job_cards : Int
  total_workers : Int
  active_workers : Int
  total_person_days : ℚ
  average_days_per_household : Option ℚ
  households_completed_100_days : Int
  total_expenditure : ℚ
  wage_expenditure : ℚ
  material_expenditure : ℚ
  average_wage_rate : ℚ
  total_works : Int
  completed_works : Int
  ongoing_works : Int
  employment_provided_percentage : Option ℚ
  timely_payment_percentage : Option ℚ
  data_source : String
  last_updated : Option Int
  is_cached : Bool
deriving DecidableEq

/-- A row of the `district_stats` table (`models.DistrictStats`), minus the
auto-increment `id`. -/
structure DistrictStats where
  district_code : String
  district_name : String
  state_name : String
  performance_score : ℚ
  employment_rank : Int
  expenditure_rank : Int
  employment_trend : ℚ
  expenditure_trend : ℚ
  state_average_comparison : ℚ
  national_average_comparison : ℚ
  total_beneficiaries : Int
  total_investment : ℚ
  calculation_date : Option Int
  last_updated : Option Int
deriving DecidableEq

/-- A row of the `cache_status` table (`models.CacheStatus`), minus `id`,
`error_message` and `created_at` (never touched by the service). -/
structure CacheStatus where
  data_type : String
  last_api_fetch : Option Int
  last_successful_fetch : Option Int
  total_records : Int
  failed_attempts : Int
  is_stale : Bool
  api_status : String
  updated_at : Option Int
deriving DecidableEq

/-- The dictionary returned by
`DataGovClient._generate_sample_district_data` /
`DataGovClient.get_district_mgnrega_data`: the fetched payload handed to
`_save_district_data_to_cache`.  Every key of this dict is a `DistrictData`
column, and it carries no `last_updated` key. -/
structure DistrictPayload where
  district_code : String
  district_name : String
  state_name : String
  year : Int
  total_job_cards : Int
  active_job_cards : Int
  total_workers : Int
  active_workers : Int
  total_person_days : ℚ
  average_days_per_household : ℚ
  households_completed_100_days : Int
  total_expenditure : ℚ
  wage_expenditure : ℚ
  material_expenditure : ℚ
  average_wage_rate : ℚ
  total_works : Int
  completed_works : Int
  ongoing_works : Int
  employment_provided_percentage : ℚ
  timely_payment_percentage : ℚ
  data_source : String
  is_cached : Bool
deriving DecidableEq

/-- Field `MGNREGAService.cache_duration_hours` (set to 24 in `__init__`). -/
def cache_duration_hours : Int := 24

/-- Method `MGNREGAService._is_cache_stale` (mgnrega_service.py lines 290-296):
```
if not last_updated: return True
stale_threshold = datetime.now() - timedelta(hours=self.cache_duration_hours)
return last_updated < stale_threshold
```
`datetime.now()` is the explicit `now` parameter. -/
def _is_cache_stale (last_updated : Option Int) (now : Int) : Bool :=
  match last_updated with
  | none => true
  | some t => decide (t < now - cache_duration_hours)

/-- The key predicate of the `district_data` cache:
`DistrictData.district_code == district_code AND DistrictData.year == year`. -/
def keyMatch (district_code : String) (year : Int) (d : DistrictData) : Bool :=
  d.district_code == district_code && d.year == year

/-- Method `MGNREGAService._get_cached_district_data` (lines 281-288):
`db.query(DistrictData).filter(and_(code == .., year == ..)).first()`. -/
def _get_cached_district_data (rows : List DistrictData) (district_code : String)
    (year : Int) : Option DistrictData :=
  rows.find? (keyMatch district_code year)

/-- Number of stored rows for a given (district_code, year) key. -/
def keyCount (rows : List DistrictData) (district_code : String) (year : Int) : Nat :=
  (rows.filter (keyMatch district_code year)).length

/-- In-place mutation of the first row matching `p` — the ORM pattern
`obj = query.first(); setattr(obj, ...); commit()` on a list-modelled table. -/
def replaceFirst {α : Type} (p : α → Bool) (f : α → α) : List α → List α
  | [] => []
  | x :: xs => if p x then f x :: xs else x :: replaceFirst p f xs

/-- The `for key, value in data.items(): if hasattr(existing, key): setattr(...)`
loop of `_save_district_data_to_cache` (lines 353-355): every key of the
fetched payload is a `DistrictData` column, so every payload field overwrites
the row's field; the payload has no `last_updated` key, so `last_updated` is
left for the explicit assignment that follows in the source. -/
def applyPayload (e : DistrictData) (p : DistrictPayload) : DistrictData :=
  { e with
    district_code := p.district_code
    district_name := p.district_name
    state_name := p.state_name
    year := p.year
    total_job_cards := p.total_job_cards
    active_job_cards := p.active_job_cards
    total_workers := p.total_workers
    active_workers := p.active_workers
    total_person_days := p.total_person_days
    average_days_per_household := some p.average_days_per_household
    households_completed_100_days := p.households_completed_100_days
    total_expenditure := p.total_expenditure
    wage_expenditure := p.wage_expenditure
    material_expenditure := p.material_expenditure
    average_wage_rate := p.average_wage_rate
    total_works := p.total_works
    completed_works := p.completed_works
    ongoing_works := p.ongoing_works
    employment_provided_percentage := some p.employment_provided_percentage
    timely_payment_percentage := some p.timely_payment_percentage
    data_source := p.data_source
    is_cached := p.is_cached }

/-- The insert branch of `_save_district_data_to_cache` (lines 358-367):
`record_payload = dict(data); record_payload["district_code"] = district_code;
record_payload["year"] = year; record_payload.setdefault("is_cached", True);
DistrictData(**record_payload); district_data.last_updated = datetime.now()`.
The fetched payload always carries an `is_cached` key, so `setdefault` keeps
the payload's value. -/
def newDistrictRow (p : DistrictPayload) (district_code : String) (year : Int)
    (now : Int) : DistrictData :=
  { district_code := district_code
    district_name := p.district_name
    state_name := p.state_name
    year := year
    total_job_cards := p.total_job_cards
    active_job_cards := p.active_job_cards
    total_workers := p.total_workers
    active_workers := p.active_workers
    total_person_days := p.total_person_days
    average_days_per_household := some p.average_days_per_household
    households_completed_100_days := p.households_completed_100_days
    total_expenditure := p.total_expenditure
    wage_expenditure := p.wage_expenditure
    material_expenditure := p.material_expenditure
    average_wage_rate := p.average_wage_rate
    total_works := p.total_works
    completed_works := p.completed_works
    ongoing_works := p.ongoing_works
    employment_provided_percentage := some p.employment_provided_percentage
    timely_payment_percentage := some p.timely_payment_percentage
    data_source := p.data_source
    last_updated := some now
    is_cached := p.is_cached }

/-- Method `MGNREGAService._format_district_data` (lines 298-324): builds the
API-response dict by copying every column of the row (the model's `id` is not
copied and is absent from the embedding), so the formatted payload is a
field-by-field copy of the row. -/
def _format_district_data (d : DistrictData) : DistrictData :=
  { district_code := d.district_code
    district_name := d.district_name
    state_name := d.state_name
    year := d.year
    total_job_cards := d.total_job_cards
    active_job_cards := d.active_job_cards
    total_workers := d.total_workers
    active_workers := d.active_workers
    total_person_days := d.total_person_days
    average_days_per_household := d.average_days_per_household
    households_completed_100_days := d.households_completed_100_days
    total_expenditure := d.total_expenditure
    wage_expenditure := d.wage_expenditure
    material_expenditure := d.material_expenditure
    average_wage_rate := d.average_wage_rate
    total_works := d.total_works
    completed_works := d.completed_works
    ongoing_works := d.ongoing_works
    employment_provided_percentage := d.employment_provided_percentage
    timely_payment_percentage := d.timely_payment_percentage
    data_source := d.data_source
    last_updated := d.last_updated
    is_cached := d.is_cached }

/-- Method `MGNREGAService._save_district_data_to_cache` (lines 345-377).
On `commitOk = true` the upsert commits: the existing row (if any) is mutated
in place with the payload's fields and `last_updated = now`, otherwise a new
row is appended; the formatted record is returned.  On `commitOk = false`
(`db.commit()` raised) the handler runs `db.rollback()` — the table keeps its
pre-call rows, carried by the `.error` value — and re-raises. -/
def _save_district_data_to_cache (rows : List DistrictData) (data : DistrictPayload)
    (district_code : String) (year : Int) (now : Int) (commitOk : Bool) :
    Except (List DistrictData) (List DistrictData × DistrictData) :=
  if commitOk then
    match _get_cached_district_data rows district_code year with
    | some existing =>
        let record := { applyPayload existing data with last_updated := some now }
        Except.ok
          (replaceFirst (keyMatch district_code year)
            (fun e => { applyPayload e data with last_updated := some now }) rows,
           _format_district_data record)
    | none =>
        let record := newDistrictRow data district_code year now
        Except.ok (rows ++ [record], _format_district_data record)
  else
    Except.error rows

/-- The portion of `MGNREGAService.get_district_data` after the fresh-cache
early return (lines 69-82): fetch from the adapter; on payload, save (an
exception escaping the save is caught by the method's blanket handler, which
returns `None` over the rolled-back table); on no payload, fall back to the
cached row — even a stale one — or `None`.  The third component records that
the Data Source Adapter was invoked on this path. -/
def districtFetchPath (rows : List DistrictData) (cached_data : Option DistrictData)
    (district_code : String) (year : Int) (now : Int)
    (fetchResult : Option DistrictPayload) (commitOk : Bool) :
    List DistrictData × Option DistrictData × Bool :=
  match fetchResult with
  | some fresh_data =>
      match _save_district_data_to_cache rows fresh_data district_code year now commitOk with
      | Except.ok (rows2, payload) => (rows2, some payload, true)
      | Except.error rows2 => (rows2, none, true)
  | none =>
      match cached_data with
      | some c => (rows, some (_format_district_data c), true)
      | none => (rows, none, true)

/-- Method `MGNREGAService.get_district_data` (lines 52-86), for a resolved
`current_year` (the source defaults a missing or zero `year` argument to
`datetime.now().year`; every claim concerns a call with an explicit year).
Result: (table after the call, response payload or `None`, whether
`data_client.get_district_mgnrega_data` was awaited). -/
def get_district_data (rows : List DistrictData) (district_code : String) (year : Int)
    (now : Int) (fetchResult : Option DistrictPayload) (commitOk : Bool) :
    List DistrictData × Option DistrictData × Bool :=
  let cached_data := _get_cached_district_data rows district_code year
  match cached_data with
  | some c =>
      if _is_cache_stale c.last_updated now then
        districtFetchPath rows cached_data district_code year now fetchResult commitOk
      else
        (rows, some (_format_district_data c), false)
  | none => districtFetchPath rows none district_code year now fetchResult commitOk

/-- True when the read path cannot be served from fresh cache: no cached row
for the key, or a cached row that is stale — precisely the condition under
which `get_district_data` proceeds to the live fetch. -/
def districtCacheMiss (rows : List DistrictData) (district_code : String) (year : Int)
    (now : Int) : Bool :=
  match _get_cached_district_data rows district_code year with
  | none => true
  | some c => _is_cache_stale c.last_updated now

/-- The hard-coded district-name table of
`DataGovClient._generate_sample_district_data` (lines 148-157), with the
fallback `f"District {district_code}"`. -/
def districtNameFor (district_code : String) : String :=
  if district_code == "AP001" then "Anantapur"
  else if district_code == "AP002" then "Chittoor"
  else if district_code == "AS001" then "Kamrup"
  else if district_code == "BR001" then "Patna"
  else if district_code == "BR002" then "Gaya"
  else if district_code == "CG001" then "Raipur"
  else if district_code == "DL001" then "Central Delhi"
  else if district_code == "GJ001" then "Ahmedabad"
  else if district_code == "HR001" then "Gurgaon"
  else if district_code == "HP001" then "Shimla"
  else if district_code == "JH001" then "Ranchi"
  else if district_code == "KA001" then "Bangalore Urban"
  else if district_code == "KL001" then "Thiruvananthapuram"
  else if district_code == "MP001" then "Bhopal"
  else if district_code == "MH001" then "Mumbai"
  else if district_code == "MH002" then "Pune"
  else if district_code == "OR001" then "Khordha"
  else if district_code == "PB001" then "Ludhiana"
  else if district_code == "RJ001" then "Jaipur"
  else if district_code == "TN001" then "Chennai"
  else if district_code == "TG001" then "Hyderabad"
  else if district_code == "UP001" then "Lucknow"
  else if district_code == "UP002" then "Kanpur Nagar"
  else if district_code == "WB001" then "Kolkata"
  else s!"District {district_code}"

/-- The hard-coded state-name table of the same method (lines 159-165), keyed
by the first two characters of the district code, with the fallback
`f"State {state_code}"`. -/
def stateNameFor (state_code : String) : String :=
  if state_code == "AP" then "Andhra Pradesh"
  else if state_code == "AS" then "Assam"
  else if state_code == "BR" then "Bihar"
  else if state_code == "CG" then "Chhattisgarh"
  else if state_code == "DL" then "Delhi"
  else if state_code == "GJ" then "Gujarat"
  else if state_code == "HR" then "Haryana"
  else if state_code == "HP" then "Himachal Pradesh"
  else if state_code == "JH" then "Jharkhand"
  else if state_code == "KA" then "Karnataka"
  else if state_code == "KL" then "Kerala"
  else if state_code == "MP" then "Madhya Pradesh"
  else if state_code == "MH" then "Maharashtra"
  else if state_code == "OR" then "Odisha"
  else if state_code == "PB" then "Punjab"
  else if state_code == "RJ" then "Rajasthan"
  else if state_code == "TN" then "Tamil Nadu"
  else if state_code == "TG" then "Telangana"
  else if state_code == "UP" then "Uttar Pradesh"
  else if state_code == "WB" then "West Bengal"
  else s!"State {state_code}"

/-- The outputs of the seeded pseudo-random draws performed by
`DataGovClient._generate_sample_district_data`, in source order.  The seeding
(`random.seed(hash(district_code + str(year)))`) makes these deterministic in
the source; the embedding abstracts the generator state as this record.
`base_population` is the `randint(500000, 2000000)` result; the remaining
fields are the successive `random.uniform(..)` results. -/
structure SampleDraws where
  base_population : Int
  rural_frac : ℚ
  job_card_frac : ℚ
  active_card_frac : ℚ
  worker_frac : ℚ
  active_worker_frac : ℚ
  person_days_frac : ℚ
  completed_100_frac : ℚ
  wage_rate : ℚ
  wage_exp_frac : ℚ
  works_frac : ℚ
  completed_works_frac : ℚ
  timely_payment : ℚ
deriving DecidableEq

/-- Method `DataGovClient._generate_sample_district_data` (lines 109-194),
with the random draws passed in.  Python `int(..)` is `ratFloor` (the
quantities are nonnegative), `round(x, 2)` is `round2`, and the returned dict
always carries `"data_source": "data.gov.in"` and `"is_cached": True`. -/
def _generate_sample_district_data (district_code : String) (year : Int)
    (d : SampleDraws) : DistrictPayload :=
  let rural_population : Int := ratFloor ((d.base_population : ℚ) * d.rural_frac)
  let total_job_cards : Int := ratFloor ((rural_population : ℚ) * d.job_card_frac)
  let active_job_cards : Int := ratFloor ((total_job_cards : ℚ) * d.active_card_frac)
  let total_workers : Int := ratFloor ((active_job_cards : ℚ) * d.worker_frac)
  let active_workers : Int := ratFloor ((total_workers : ℚ) * d.active_worker_frac)
  let total_person_days : Int := ratFloor ((active_workers : ℚ) * d.person_days_frac)
  let average_days_per_household : ℚ :=
    (total_person_days : ℚ) / ((max active_job_cards 1 : Int) : ℚ)
  let households_completed_100_days : Int :=
    ratFloor ((active_job_cards : ℚ) * d.completed_100_frac)
  let total_expenditure : ℚ := (total_person_days : ℚ) * d.wage_rate / 100000
  let wage_expenditure : ℚ := total_expenditure * d.wage_exp_frac
  let material_expenditure : ℚ := total_expenditure - wage_expenditure
  let total_works : Int := ratFloor ((active_job_cards : ℚ) * d.works_frac)
  let completed_works : Int := ratFloor ((total_works : ℚ) * d.completed_works_frac)
  let ongoing_works : Int := total_works - completed_works
  let employment_provided_percentage : ℚ :=
    min (average_days_per_household / 100 * 100) 100
  { district_code := district_code
    district_name := districtNameFor district_code
    state_name := stateNameFor (district_code.take 2)
    year := year
    total_job_cards := total_job_cards
    active_job_cards := active_job_cards
    total_workers := total_workers
    active_workers := active_workers
    total_person_days := round2 (total_person_days : ℚ)
    average_days_per_household := round2 average_days_per_household
    households_completed_100_days := households_completed_100_days
    total_expenditure := round2 total_expenditure
    wage_expenditure := round2 wage_expenditure
    material_expenditure := round2 material_expenditure
    average_wage_rate := round2 d.wage_rate
    total_works := total_works
    completed_works := completed_works
    ongoing_works := ongoing_works
    employment_provided_percentage := round2 employment_provided_percentage
    timely_payment_percentage := round2 d.timely_payment
    data_source := "data.gov.in"
    is_cached := true }

/-- Descending-year comparison used to model `order_by(desc(DistrictData.year))`. -/
def yearGE (a b : DistrictData) : Prop := b.year ≤ a.year

instance : DecidableRel yearGE :=
  fun a b => inferInstanceAs (Decidable (b.year ≤ a.year))

instance : IsTotal DistrictData yearGE :=
  ⟨fun a b => le_total b.year a.year⟩

instance : IsTrans DistrictData yearGE :=
  ⟨fun _ _ _ hab hbc => le_trans hbc hab⟩

/-- The query of `_calculate_district_stats` (lines 409-411):
`query(DistrictData).filter(code == ..).order_by(desc(year)).limit(3).all()` —
the district's rows ordered most recent year first, truncated to three. -/
def recentDistrictData (rows : List DistrictData) (district_code : String) :
    List DistrictData :=
  (List.insertionSort yearGE
    (rows.filter (fun d => d.district_code == district_code))).take 3

/-- The dict returned by `MGNREGAService._calculate_district_stats`
(lines 441-454).  Its keys are exactly the `DistrictStats` columns it names
(`district_code` and `last_updated` are not among them). -/
structure StatsPayload where
  district_name : String
  state_name : String
  performance_score : ℚ
  employment_rank : Int
  expenditure_rank : Int
  employment_trend : ℚ
  expenditure_trend : ℚ
  state_average_comparison : ℚ
  national_average_comparison : ℚ
  total_beneficiaries : Int
  total_investment : ℚ
  calculation_date : Int
deriving DecidableEq

/-- Method `MGNREGAService._calculate_district_stats` (lines 405-458).
`(x or 0)` on the nullable percentage columns is `orZero`; on the
non-nullable `active_workers` / `total_expenditure` columns it is the
identity (`0 or 0 == 0`), so it is dropped.  `recent_data[0]` is `latest_data`,
`recent_data[1]` is `previous`; trends stay `0.0` with fewer than two rows or
when the previous value is not positive. -/
def _calculate_district_stats (rows : List DistrictData) (district_code : String)
    (now : Int) : Option StatsPayload :=
  match recentDistrictData rows district_code with
  | [] => none
  | latest_data :: rest =>
      let performance_score : ℚ :=
        orZero latest_data.employment_provided_percentage * 0.4 +
        orZero latest_data.timely_payment_percentage * 0.3 +
        min (orZero latest_data.average_days_per_household / 100 * 100) 100 * 0.3
      let employment_trend : ℚ :=
        match rest with
        | [] => 0
        | previous :: _ =>
            if 0 < previous.total_person_days then
              (latest_data.total_person_days - previous.total_person_days) /
                previous.total_person_days * 100
            else 0
      let expenditure_trend : ℚ :=
        match rest with
        | [] => 0
        | previous :: _ =>
            if 0 < previous.total_expenditure then
              (latest_data.total_expenditure - previous.total_expenditure) /
                previous.total_expenditure * 100
            else 0
      some
        { district_name := latest_data.district_name
          state_name := latest_data.state_name
          performance_score := round2 performance_score
          employment_rank := 0
          expenditure_rank := 0
          employment_trend := round2 employment_trend
          expenditure_trend := round2 expenditure_trend
          state_average_comparison := 0
          national_average_comparison := 0
          total_beneficiaries := latest_data.active_workers
          total_investment := latest_data.total_expenditure
          calculation_date := now }

/-- The `setattr` loop of `_save_district_stats_to_cache` (lines 387-389):
every key of the stats dict is a `DistrictStats` column, so each one
overwrites the row's field; `district_code` and `last_updated` are not keys
of the dict and are untouched here. -/
def applyStatsPayload (e : DistrictStats) (s : StatsPayload) : DistrictStats :=
  { e with
    district_name := s.district_name
    state_name := s.state_name
    performance_score := s.performance_score
    employment_rank := s.employment_rank
    expenditure_rank := s.expenditure_rank
    employment_trend := s.employment_trend
    expenditure_trend := s.expenditure_trend
    state_average_comparison := s.state_average_comparison
    national_average_comparison := s.national_average_comparison
    total_beneficiaries := s.total_beneficiaries
    total_investment := s.total_investment
    calculation_date := some s.calculation_date }

/-- The insert branch of `_save_district_stats_to_cache` (lines 392-397):
`DistrictStats(district_code=district_code, last_updated=datetime.now(), **stats)`. -/
def newStatsRow (district_code : String) (s : StatsPayload) (now : Int) : DistrictStats :=
  { district_code := district_code
    district_name := s.district_name
    state_name := s.state_name
    performance_score := s.performance_score
    employment_rank := s.employment_rank
    expenditure_rank := s.expenditure_rank
    employment_trend := s.employment_trend
    expenditure_trend := s.expenditure_trend
    state_average_comparison := s.state_average_comparison
    national_average_comparison := s.national_average_comparison
    total_beneficiaries := s.total_beneficiaries
    total_investment := s.total_investment
    calculation_date := some s.calculation_date
    last_updated := some now }

/-- Method `MGNREGAService._save_district_stats_to_cache` (lines 379-403).
Upserts the stats row keyed by `district_code`; on commit failure it rolls
back and — unlike the district-data save — swallows the exception (no
`raise`), so it always returns a table: the updated one on success, the
pre-call one on failure. -/
def _save_district_stats_to_cache (statsRows : List DistrictStats)
    (stats : StatsPayload) (district_code : String) (now : Int) (commitOk : Bool) :
    List DistrictStats :=
  if commitOk then
    match statsRows.find? (fun s => s.district_code == district_code) with
    | some _ =>
        replaceFirst (fun e => e.district_code == district_code)
          (fun e => { applyStatsPayload e stats with last_updated := some now }) statsRows
    | none => statsRows ++ [newStatsRow district_code stats now]
  else
    statsRows

/-- Method `MGNREGAService._format_district_stats` (lines 326-343): copies
every column of the stats row into the API-response dict. -/
def _format_district_stats (s : DistrictStats) : DistrictStats :=
  { district_code := s.district_code
    district_name := s.district_name
    state_name := s.state_name
    performance_score := s.performance_score
    employment_rank := s.employment_rank
    expenditure_rank := s.expenditure_rank
    employment_trend := s.employment_trend
    expenditure_trend := s.expenditure_trend
    state_average_comparison := s.state_average_comparison
    national_average_comparison := s.national_average_comparison
    total_beneficiaries := s.total_beneficiaries
    total_investment := s.total_investment
    calculation_date := s.calculation_date
    last_updated := s.last_updated }

/-- The two shapes of dict `get_district_stats` can return: the formatted
cached `DistrictStats` row, or the freshly recomputed stats dict (which the
method returns as-is, without re-reading the store). -/
inductive StatsResponse where
  | cachedStats : DistrictStats → StatsResponse
  | freshStats : StatsPayload → StatsResponse
deriving DecidableEq

/-- Method `MGNREGAService.get_district_stats` (lines 88-119): serve fresh
cached stats; otherwise recompute from the district's cached records, persist
(best-effort) and return the recomputed dict; otherwise fall back to stale
cached stats; otherwise `None`. -/
def get_district_stats (dataRows : List DistrictData) (statsRows : List DistrictStats)
    (district_code : String) (now : Int) (commitOk : Bool) :
    List DistrictStats × Option StatsResponse :=
  match statsRows.find? (fun s => s.district_code == district_code) with
  | some cached_stats =>
      if _is_cache_stale cached_stats.last_updated now then
        match _calculate_district_stats dataRows district_code now with
        | some stats =>
            (_save_district_stats_to_cache statsRows stats district_code now commitOk,
             some (StatsResponse.freshStats stats))
        | none => (statsRows, some (StatsResponse.cachedStats (_format_district_stats cached_stats)))
      else
        (statsRows, some (StatsResponse.cachedStats (_format_district_stats cached_stats)))
  | none =>
      match _calculate_district_stats dataRows district_code now with
      | some stats =>
          (_save_district_stats_to_cache statsRows stats district_code now commitOk,
           some (StatsResponse.freshStats stats))
      | none => (statsRows, none)

/-- True when the stats read cannot be served from fresh cached stats: no
stats row for the district, or a stale one. -/
def statsCacheMiss (statsRows : List DistrictStats) (district_code : String)
    (now : Int) : Bool :=
  match statsRows.find? (fun s => s.district_code == district_code) with
  | none => true
  | some cs => _is_cache_stale cs.last_updated now

/-- The update sequence of `MGNREGAService._update_cache_status`
(lines 511-526) applied to the row the query found — a persisted row, whose
`failed_attempts` column holds an integer.  Always stamps `last_api_fetch`,
`total_records` and `updated_at`; a positive success count resets the failure
state, a zero one increments `failed_attempts` and, at three or more, marks
the API down and the cache stale. -/
def applyCacheStatusUpdate (cache_status : CacheStatus) (success_count : Int)
    (now : Int) : CacheStatus :=
  let cs := { cache_status with last_api_fetch := some now, total_records := success_count }
  let cs :=
    if 0 < success_count then
      { cs with
        last_successful_fetch := some now
        api_status := "active"
        is_stale := false
        failed_attempts := 0 }
    else
      let cs := { cs with failed_attempts := cs.failed_attempts + 1 }
      if 3 ≤ cs.failed_attempts then
        { cs with api_status := "down", is_stale := true }
      else cs
  { cs with updated_at := some now }

/-- Method `MGNREGAService._update_cache_status` (lines 500-530) on the
`cache_status` table.  If the query finds a row, the update sequence is
applied to it in place and committed.  If no row exists, the source
constructs `CacheStatus(data_type=data_type)` and adds it to the session;
SQLAlchemy applies the column defaults only at flush, so on the pending
object `failed_attempts` is `None`: with `success_count > 0` every column the
update sequence touches is assigned explicitly and the commit inserts the
new row, but with `success_count == 0` the line
`cache_status.failed_attempts += 1` raises `TypeError` (`None + 1`), which
the blanket handler catches and rolls back — the table is left unchanged and
no row is created. -/
def _update_cache_status (table : List CacheStatus) (data_type : String)
    (success_count : Int) (now : Int) : List CacheStatus :=
  match table.find? (fun cs => cs.data_type == data_type) with
  | some _ =>
      replaceFirst (fun cs => cs.data_type == data_type)
        (fun cs => applyCacheStatusUpdate cs success_count now) table
  | none =>
      if 0 < success_count then
        table ++
          [{ data_type := data_type
             last_api_fetch := some now
             last_successful_fetch := some now
             total_records := success_count
             failed_attempts := 0
             is_stale := false
             api_status := "active"
             updated_at := some now }]
      else
        table

/-- C1: on a read whose live source fetch fails, a cached record — stale or
not — is returned (never `None`), carrying its served-from-cache flag; with
no cached record the read returns `None`, not a default record. -/
theorem read_source_failure_fallback (rows : List DistrictData) (district_code : String)
    (year now : Int) (commitOk : Bool) :
    (∀ c, _get_cached_district_data rows district_code year = some c →
      (get_district_data rows district_code year now none commitOk).2.1 =
        some (_format_district_data c) ∧
      (c.is_cached = true →
        (get_district_data rows district_code year now none commitOk).2.1.map
          (fun d => d.is_cached) = some true)) ∧
    (_get_cached_district_data rows district_code year = none →
      get_district_data rows district_code year now none commitOk = (rows, none, true)) := by
  constructor
  · intro c hc
    have hres : (get_district_data rows district_code year now none commitOk).2.1 =
        some (_format_district_data c) := by
      unfold get_district_data districtFetchPath
      rw [hc]
      cases h : _is_cache_stale c.last_updated now <;> simp [h]
    refine ⟨hres, fun hic => ?_⟩
    rw [hres]
    simp [_format_district_data, hic]
  · intro hc
    unfold get_district_data districtFetchPath
    rw [hc]

/-- A concrete cached row used by the witnesses. -/
def rowA : DistrictData :=
  { district_code := "AP001"
    district_name := "Anantapur"
    state_name := "Andhra Pradesh"
    year := 2024
    total_job_cards := 1000
    active_job_cards := 500
    total_workers := 900
    active_workers := 400
    total_person_days := 1000
    average_days_per_household := some 2
    households_completed_100_days := 50
    total_expenditure := 50
    wage_expenditure := 35
    material_expenditure := 15
    average_wage_rate := 200
    total_works := 120
    completed_works := 80
    ongoing_works := 40
    employment_provided_percentage := some 2
    timely_payment_percentage := some 80
    data_source := "data.gov.in"
    last_updated := some 90
    is_cached := true }

/-- A stale variant of `rowA`, used by the witnesses. -/
def rowStale : DistrictData :=
  { rowA with last_updated := some 0 }

/-- Witness for C1: stale-cache fallback on a failing fetch, and absence on
an empty store. -/
theorem read_source_failure_fallback_witness :
    (get_district_data [rowStale] "AP001" 2024 100 none true).2.1 =
      some (_format_district_data rowStale) ∧
    (get_district_data [rowStale] "AP001" 2024 100 none true).2.1.map
      (fun d => d.is_cached) = some true ∧
    (get_district_data [] "AP001" 2024 100 none true) = ([], none, true) :=
  ⟨((read_source_failure_fallback [rowStale] "AP001" 2024 100 true).1 rowStale
      (by decide)).1,
   ((read_source_failure_fallback [rowStale] "AP001" 2024 100 true).1 rowStale
      (by decide)).2 rfl,
   (read_source_failure_fallback [] "AP001" 2024 100 true).2 rfl⟩

/-- C2: a cached record younger than `max_age` (24 hours) is served as-is and
the Data Source Adapter is not invoked (third component `false`), whatever
the adapter would have answered. -/
theorem fresh_cache_read_no_fetch (rows : List DistrictData) (district_code : String)
    (year now t : Int) (c : DistrictData) (fetchResult : Option DistrictPayload)
    (commitOk : Bool)
    (hc : _get_cached_district_data rows district_code year = some c)
    (ht : c.last_updated = some t)
    (hfresh : now - t < cache_duration_hours) :
    get_district_data rows district_code year now fetchResult commitOk =
      (rows, some (_format_district_data c), false) := by
  have hstale : _is_cache_stale c.last_updated now = false := by
    rw [ht]
    simp only [_is_cache_stale, decide_eq_false_iff_not, not_lt]
    omega
  unfold get_district_data
  rw [hc]
  simp [hstale]

/-- Witness for C2 at a concrete store and clock. -/
theorem fresh_cache_read_no_fetch_witness :
    get_district_data [rowA] "AP001" 2024 100 none true =
      ([rowA], some (_format_district_data rowA), false) :=
  fresh_cache_read_no_fetch [rowA] "AP001" 2024 100 90 rowA none true
    (by decide) rfl (by decide)

/-- C3 counterexample: a record whose age is exactly `max_age` (24 hours) is
classified fresh by `_is_cache_stale`, so the predicate is not equivalent to
`now - last_updated ≥ max_age`. -/
theorem stale_boundary_counterexample :
    ¬ (_is_cache_stale (some 0) 24 = true ↔ (24 : Int) - 0 ≥ cache_duration_hours) := by
  decide

/-- C3 amended: a missing timestamp is stale, and a present timestamp is
stale exactly when `now - last_updated > max_age` (strictly); a record aged
exactly `max_age` is classified fresh. -/
theorem stale_iff_strictly_older (now t : Int) :
    _is_cache_stale none now = true ∧
    (_is_cache_stale (some t) now = true ↔ now - t > cache_duration_hours) := by
  refine ⟨rfl, ?_⟩
  simp only [_is_cache_stale, decide_eq_true_eq, gt_iff_lt]
  omega

/-- Finding after an in-place replacement that preserves the predicate. -/
theorem find?_replaceFirst {α : Type} (p : α → Bool) (f : α → α) (l : List α)
    (hpf : ∀ a, p a = true → p (f a) = true) :
    List.find? p (replaceFirst p f l) = (List.find? p l).map f := by
  induction l with
  | nil => rfl
  | cons x xs ih =>
      by_cases hx : p x = true
      · unfold replaceFirst
        rw [if_pos hx]
        rw [List.find?_cons_of_pos _ (hpf x hx), List.find?_cons_of_pos _ hx]
        rfl
      · unfold replaceFirst
        rw [if_neg hx]
        rw [List.find?_cons_of_neg _ (by simpa using hx),
          List.find?_cons_of_neg _ (by simpa using hx), ih]

/-- The health-update sequence never changes the row's `data_type` key. -/
theorem applyCacheStatusUpdate_data_type (cs : CacheStatus) (success_count now : Int) :
    (applyCacheStatusUpdate cs success_count now).data_type = cs.data_type := by
  by_cases h : 0 < success_count
  · simp [applyCacheStatusUpdate, h]
  · by_cases h3 : 3 ≤ cs.failed_attempts + 1
    · simp [applyCacheStatusUpdate, h, h3]
    · simp [applyCacheStatusUpdate, h, h3]

/-- A health update for a data type whose row exists rewrites exactly that
row, leaving its key in place. -/
theorem update_cache_status_find_eq (table : List CacheStatus) (data_type : String)
    (cs : CacheStatus) (success_count now : Int)
    (h : table.find? (fun c => c.data_type == data_type) = some cs) :
    (_update_cache_status table data_type success_count now).find?
      (fun c => c.data_type == data_type) =
      some (applyCacheStatusUpdate cs success_count now) := by
  unfold _update_cache_status
  simp only [h]
  rw [find?_replaceFirst _ _ table (by
    intro a ha
    simpa [applyCacheStatusUpdate_data_type] using ha)]
  rw [h]
  rfl

/-- C4 counterexample: a zero-success health update for a data type with no
stored row raises `TypeError` on the pending object's `None` counter and is
rolled back: the table stays empty — no failure counter is incremented and no
row is created, against the claim's unconditional increment on
`success_count == 0`. -/
theorem cache_status_missing_row_counterexample :
    _update_cache_status [] "district_data" 0 10 = [] ∧
    (_update_cache_status [] "district_data" 0 10).find?
      (fun c => c.data_type == "district_data") = none :=
  ⟨rfl, rfl⟩

/-- C4 amended: applied to an existing health row (whose counter is an
integer), a positive success count resets the failure state, marks the API
active and fresh and stamps `last_successful_fetch`; a zero success count
increments the counter, escalating to `down`/stale at three or more and
leaving the status untouched below; three consecutive zero-success updates
from a zero counter flip the stored row to `down`/stale.  When no row exists
for the data type, a zero-success update fails on its `None` counter
(`TypeError`) and is rolled back, leaving the table unchanged — nothing is
incremented — while a positive-success update inserts the row in the active
state. -/
theorem update_cache_status_transitions (table : List CacheStatus) (cs : CacheStatus)
    (data_type : String) (success_count now t1 t2 t3 : Int) :
    (table.find? (fun c => c.data_type == data_type) = some cs →
      (_update_cache_status table data_type success_count now).find?
        (fun c => c.data_type == data_type) =
        some (applyCacheStatusUpdate cs success_count now)) ∧
    (0 < success_count →
      (applyCacheStatusUpdate cs success_count now).failed_attempts = 0 ∧
      (applyCacheStatusUpdate cs success_count now).api_status = "active" ∧
      (applyCacheStatusUpdate cs success_count now).is_stale = false ∧
      (applyCacheStatusUpdate cs success_count now).last_successful_fetch = some now) ∧
    (success_count = 0 →
      (applyCacheStatusUpdate cs success_count now).failed_attempts =
        cs.failed_attempts + 1 ∧
      (3 ≤ cs.failed_attempts + 1 →
        (applyCacheStatusUpdate cs success_count now).api_status = "down" ∧
        (applyCacheStatusUpdate cs success_count now).is_stale = true) ∧
      (cs.failed_attempts + 1 < 3 →
        (applyCacheStatusUpdate cs success_count now).api_status = cs.api_status ∧
        (applyCacheStatusUpdate cs success_count now).is_stale = cs.is_stale)) ∧
    (table.find? (fun c => c.data_type == data_type) = some cs →
      cs.failed_attempts = 0 →
      ((_update_cache_status (_update_cache_status (_update_cache_status table
          data_type 0 t1) data_type 0 t2) data_type 0 t3).find?
        (fun c => c.data_type == data_type)).map
        (fun c => (c.api_status, c.is_stale)) = some ("down", true)) ∧
    (table.find? (fun c => c.data_type == data_type) = none →
      _update_cache_status table data_type 0 now = table ∧
      (0 < success_count →
        _update_cache_status table data_type success_count now =
          table ++
            [{ data_type := data_type
               last_api_fetch := some now
               last_successful_fetch := some now
               total_records := success_count
               failed_attempts := 0
               is_stale := false
               api_status := "active"
               updated_at := some now }])) := by
  refine ⟨fun hfind => update_cache_status_find_eq table data_type cs success_count now hfind,
    fun hpos => ?_, fun hzero => ?_, fun hfind hfa => ?_, fun hnone => ?_⟩
  · simp [applyCacheStatusUpdate, hpos]
  · subst hzero
    by_cases h3 : 3 ≤ cs.failed_attempts + 1
    · simp [applyCacheStatusUpdate, h3]
    · simp [applyCacheStatusUpdate, h3]
  · have h1 := update_cache_status_find_eq table data_type cs 0 t1 hfind
    have h2 := update_cache_status_find_eq _ data_type _ 0 t2 h1
    have h3 := update_cache_status_find_eq _ data_type _ 0 t3 h2
    rw [h3]
    simp [applyCacheStatusUpdate, hfa]
  · constructor
    · unfold _update_cache_status
      rw [hnone]
      simp
    · intro hpos
      unfold _update_cache_status
      rw [hnone]
      simp [hpos]

/-- A concrete health row used by the witnesses. -/
def csExample : CacheStatus :=
  { data_type := "district_data"
    last_api_fetch := none
    last_successful_fetch := none
    total_records := 0
    failed_attempts := 0
    is_stale := false
    api_status := "unknown"
    updated_at := none }

/-- Witness for C4 (amended) at concrete tables, rows and counts: every
hypothesis of the theorem is discharged on one of the conjuncts. -/
theorem update_cache_status_transitions_witness :
    (_update_cache_status [csExample] "district_data" 5 10).find?
      (fun c => c.data_type == "district_data") =
      some (applyCacheStatusUpdate csExample 5 10) ∧
    (applyCacheStatusUpdate csExample 5 10).api_status = "active" ∧
    (applyCacheStatusUpdate csExample 0 10).failed_attempts =
      csExample.failed_attempts + 1 ∧
    (applyCacheStatusUpdate { csExample with failed_attempts := 2 } 0 10).api_status =
      "down" ∧
    ((_update_cache_status (_update_cache_status (_update_cache_status [csExample]
        "district_data" 0 1) "district_data" 0 2) "district_data" 0 3).find?
      (fun c => c.data_type == "district_data")).map
      (fun c => (c.api_status, c.is_stale)) = some ("down", true) ∧
    _update_cache_status [] "district_data" 0 10 = [] ∧
    _update_cache_status [] "district_data" 5 10 =
      [{ data_type := "district_data"
         last_api_fetch := some 10
         last_successful_fetch := some 10
         total_records := 5
         failed_attempts := 0
         is_stale := false
         api_status := "active"
         updated_at := some 10 }] :=
  ⟨(update_cache_status_transitions [csExample] csExample "district_data" 5 10 1 2 3).1 rfl,
   ((update_cache_status_transitions [csExample] csExample "district_data" 5 10 1 2 3).2.1
     (by decide)).2.1,
   ((update_cache_status_transitions [csExample] csExample "district_data" 0 10 1 2 3).2.2.1
     rfl).1,
   ((((update_cache_status_transitions [{ csExample with failed_attempts := 2 }]
      { csExample with failed_attempts := 2 } "district_data" 0 10 1 2 3).2.2.1 rfl).2.1)
     (by decide)).1,
   (update_cache_status_transitions [csExample] csExample "district_data" 0 0 1 2 3).2.2.2.1
     rfl rfl,
   ((update_cache_status_transitions [] csExample "district_data" 0 10 1 2 3).2.2.2.2 rfl).1,
   ((update_cache_status_transitions [] csExample "district_data" 5 10 1 2 3).2.2.2.2 rfl).2
     (by decide)⟩

/-- C5: for a district with at least one cached record, the recomputed
performance score is `0.4·employment% + 0.3·timely% + 0.3·min(avg_days, 100)`
over the most recent record (missing metrics as 0), rounded to two decimals;
the head of the query result is indeed the district's most recent record. -/
theorem performance_score_formula (rows : List DistrictData) (district_code : String)
    (now : Int) (latest : DistrictData) (rest : List DistrictData)
    (h : recentDistrictData rows district_code = latest :: rest) :
    (_calculate_district_stats rows district_code now).map (fun s => s.performance_score) =
      some (round2 (0.4 * orZero latest.employment_provided_percentage +
        0.3 * orZero latest.timely_payment_percentage +
        0.3 * min (orZero latest.average_days_per_household) 100)) ∧
    (∀ d ∈ rows, d.district_code = district_code → d.year ≤ latest.year) := by
  constructor
  · unfold _calculate_district_stats
    rw [h]
    simp only [Option.map_some']
    congr 1
    have h100 : orZero latest.average_days_per_household / 100 * 100 =
        orZero latest.average_days_per_household :=
      div_mul_cancel₀ _ (by norm_num)
    rw [h100]
    ring_nf
  · intro d hd hdc
    have hdf : d ∈ rows.filter (fun d => d.district_code == district_code) := by
      rw [List.mem_filter]
      exact ⟨hd, by simp [hdc]⟩
    have hdL : d ∈ List.insertionSort yearGE
        (rows.filter (fun d => d.district_code == district_code)) :=
      (List.perm_insertionSort yearGE _).mem_iff.mpr hdf
    obtain ⟨tl, hL⟩ : ∃ tl, List.insertionSort yearGE
        (rows.filter (fun d => d.district_code == district_code)) = latest :: tl := by
      have h' := h
      unfold recentDistrictData at h'
      cases hc : List.insertionSort yearGE
          (rows.filter (fun d => d.district_code == district_code)) with
      | nil => rw [hc] at h'; simp at h'
      | cons a tl =>
          rw [hc, List.take_succ_cons] at h'
          injection h' with h1 _
          exact ⟨tl, by rw [h1]⟩
    have hsorted := List.sorted_insertionSort yearGE
      (rows.filter (fun d => d.district_code == district_code))
    rw [hL] at hsorted hdL
    rcases List.mem_cons.mp hdL with heq | hmem
    · exact le_of_eq (by rw [heq])
    · exact (List.sorted_cons.mp hsorted).1 d hmem

/-- Witness for C5 at a concrete one-record store. -/
theorem performance_score_formula_witness :
    (_calculate_district_stats [rowA] "AP001" 0).map (fun s => s.performance_score) =
      some (round2 (0.4 * orZero rowA.employment_provided_percentage +
        0.3 * orZero rowA.timely_payment_percentage +
        0.3 * min (orZero rowA.average_days_per_household) 100)) :=
  (performance_score_formula [rowA] "AP001" 0 rowA [] (by decide)).1

/-- Rounding zero to two decimals yields exactly zero. -/
theorem round2_zero : round2 0 = 0 := by
  simp only [round2, roundHalfEven, ratFloor]
  norm_num

/-- C6 amended: each trend equals the guarded year-over-year formula rounded
to two decimal places; a zero previous value yields exactly 0 (no division by
zero — the quotient is never formed), and with fewer than two records both
trends are exactly 0. -/
theorem trend_computation (rows : List DistrictData) (district_code : String) (now : Int) :
    (∀ latest previous rest,
      recentDistrictData rows district_code = latest :: previous :: rest →
      (_calculate_district_stats rows district_code now).map (fun s => s.employment_trend) =
        some (round2 (if 0 < previous.total_person_days then
          (latest.total_person_days - previous.total_person_days) /
            previous.total_person_days * 100 else 0)) ∧
      (_calculate_district_stats rows district_code now).map (fun s => s.expenditure_trend) =
        some (round2 (if 0 < previous.total_expenditure then
          (latest.total_expenditure - previous.total_expenditure) /
            previous.total_expenditure * 100 else 0)) ∧
      (previous.total_person_days = 0 →
        (_calculate_district_stats rows district_code now).map (fun s => s.employment_trend) =
          some 0) ∧
      (previous.total_expenditure = 0 →
        (_calculate_district_stats rows district_code now).map (fun s => s.expenditure_trend) =
          some 0)) ∧
    (∀ latest, recentDistrictData rows district_code = [latest] →
      (_calculate_district_stats rows district_code now).map (fun s => s.employment_trend) =
        some 0 ∧
      (_calculate_district_stats rows district_code now).map (fun s => s.expenditure_trend) =
        some 0) := by
  constructor
  · intro latest previous rest h
    refine ⟨?_, ?_, fun hz => ?_, fun hz => ?_⟩
    · unfold _calculate_district_stats
      rw [h]
      simp
    · unfold _calculate_district_stats
      rw [h]
      simp
    · unfold _calculate_district_stats
      rw [h]
      simp [hz, round2_zero]
    · unfold _calculate_district_stats
      rw [h]
      simp [hz, round2_zero]
  · intro latest h
    unfold _calculate_district_stats
    rw [h]
    simp [round2_zero]

/-- Concrete rows for the C6 counterexample and witness: the year-over-year
person-days go from 3 to 1, whose exact trend −200/3 has no two-decimal
representation. -/
def rowCur : DistrictData :=
  { rowA with
    district_code := "XX"
    year := 2024
    total_person_days := 1
    total_expenditure := 50 }

/-- The earlier year for the C6 counterexample. -/
def rowPrev : DistrictData :=
  { rowA with
    district_code := "XX"
    year := 2023
    total_person_days := 3
    total_expenditure := 50 }

/-- C6 counterexample: the stored employment trend is the two-decimal
rounding −66.67, not the exact `(current − previous)/previous·100 = −200/3`
the claim states. -/
theorem trend_rounding_counterexample :
    (_calculate_district_stats [rowCur, rowPrev] "XX" 0).map (fun s => s.employment_trend) =
      some (-6667 / 100) ∧
    ¬ ((-6667 / 100 : ℚ) =
        (rowCur.total_person_days - rowPrev.total_person_days) /
          rowPrev.total_person_days * 100) := by
  constructor
  · have hrec : recentDistrictData [rowCur, rowPrev] "XX" = [rowCur, rowPrev] := by decide
    unfold _calculate_district_stats
    rw [hrec]
    simp only [Option.map_some']
    simp only [rowCur, rowPrev, rowA, round2, roundHalfEven, ratFloor]
    norm_num
  · simp only [rowCur, rowPrev, rowA]
    norm_num

/-- Witness for C6 (amended) at the concrete two-record store. -/
theorem trend_computation_witness :
    (_calculate_district_stats [rowCur, rowPrev] "XX" 0).map (fun s => s.employment_trend) =
      some (round2 (if 0 < rowPrev.total_person_days then
        (rowCur.total_person_days - rowPrev.total_person_days) /
          rowPrev.total_person_days * 100 else 0)) :=
  ((trend_computation [rowCur, rowPrev] "XX" 0).1 rowCur rowPrev [] (by decide)).1

/-- Concrete pseudo-random draws for the generator, used by the witnesses. -/
def drawsExample : SampleDraws :=
  { base_population := 1000000
    rural_frac := 7/10
    job_card_frac := 1/5
    active_card_frac := 1/2
    worker_frac := 2
    active_worker_frac := 1/2
    person_days_frac := 50
    completed_100_frac := 1/5
    wage_rate := 200
    wage_exp_frac := 7/10
    works_frac := 1
    completed_works_frac := 3/4
    timely_payment := 80 }

/-- C7 counterexample: a read on an empty cache whose live fetch succeeds
returns a record, and that record's served-from-cache flag is `true` — not
`false` — because the client payload itself carries `is_cached = True` and the
save path stores and returns it unchanged. -/
theorem fresh_fetch_flag_counterexample :
    ((get_district_data [] "AP001" 2024 100
        (some (_generate_sample_district_data "AP001" 2024 drawsExample)) true).2.1.map
      (fun d => d.is_cached) = some true) ∧
    ¬ ((get_district_data [] "AP001" 2024 100
        (some (_generate_sample_district_data "AP001" 2024 drawsExample)) true).2.1.map
      (fun d => d.is_cached) = some false) := by
  have h1 : (get_district_data [] "AP001" 2024 100
      (some (_generate_sample_district_data "AP001" 2024 drawsExample)) true).2.1.map
      (fun d => d.is_cached) = some true := rfl
  refine ⟨h1, fun h => ?_⟩
  rw [h1] at h
  exact Bool.noConfusion (Option.some.inj h)

/-- C7 amended: on the fresh-fetch path (cache miss, adapter returns a
payload, write-back commits), the record returned to the caller always
carries `is_cached = true` — the same flag value a cache-served result
carries — so the flag does not distinguish fresh from cached data. -/
theorem fresh_fetch_flag_always_true (rows : List DistrictData)
    (district_code : String) (year now : Int) (draws : SampleDraws)
    (hmiss : districtCacheMiss rows district_code year now = true) :
    (get_district_data rows district_code year now
      (some (_generate_sample_district_data district_code year draws)) true).2.1.map
      (fun d => d.is_cached) = some true := by
  have hp : (_generate_sample_district_data district_code year draws).is_cached = true := rfl
  unfold get_district_data
  cases hc : _get_cached_district_data rows district_code year with
  | none =>
      simp [districtFetchPath, _save_district_data_to_cache, hc,
        _format_district_data, newDistrictRow, hp]
  | some c =>
      have hstale : _is_cache_stale c.last_updated now = true := by
        unfold districtCacheMiss at hmiss
        rw [hc] at hmiss
        exact hmiss
      simp [hstale, districtFetchPath, _save_district_data_to_cache, hc,
        _format_district_data, applyPayload, hp]

/-- Witness for C7 (amended) at the empty store. -/
theorem fresh_fetch_flag_always_true_witness :
    (get_district_data [] "AP001" 2024 100
      (some (_generate_sample_district_data "AP001" 2024 drawsExample)) true).2.1.map
      (fun d => d.is_cached) = some true :=
  fresh_fetch_flag_always_true [] "AP001" 2024 100 drawsExample rfl

/-- A concrete fetched payload used by the C8/C9 witnesses. -/
def payloadA : DistrictPayload :=
  { district_code := "AP001"
    district_name := "Anantapur"
    state_name := "Andhra Pradesh"
    year := 2024
    total_job_cards := 1200
    active_job_cards := 600
    total_workers := 1100
    active_workers := 500
    total_person_days := 25000
    average_days_per_household := 125/3
    households_completed_100_days := 120
    total_expenditure := 50
    wage_expenditure := 35
    material_expenditure := 15
    average_wage_rate := 200
    total_works := 600
    completed_works := 450
    ongoing_works := 150
    employment_provided_percentage := 125/3
    timely_payment_percentage := 80
    data_source := "data.gov.in"
    is_cached := true }

/-- C8 counterexample: with an empty cache, a successful fetch and a failing
write-back commit, the helper rolls back and raises, but `get_district_data`
returns the absence result `None` to its caller — no hard failure crosses the
orchestrator boundary. -/
theorem save_failure_absence_counterexample :
    _save_district_data_to_cache [] payloadA "AP001" 2024 100 false = Except.error [] ∧
    get_district_data [] "AP001" 2024 100 (some payloadA) false = ([], none, true) := by
  exact ⟨rfl, rfl⟩

/-- C8 amended: when the read cannot be served from fresh cache, the fetch
succeeds and the write-back fails, `_save_district_data_to_cache` rolls the
store back (the error carries the unchanged rows) and re-raises, but the
blanket `except` in `get_district_data` converts the failure into the absence
result `None` over the unchanged store — it does not surface a hard failure,
and it does not even fall back to a stale cached row. -/
theorem save_failure_returns_absence (rows : List DistrictData)
    (district_code : String) (year now : Int) (p : DistrictPayload)
    (hmiss : districtCacheMiss rows district_code year now = true) :
    _save_district_data_to_cache rows p district_code year now false =
      Except.error rows ∧
    get_district_data rows district_code year now (some p) false = (rows, none, true) := by
  refine ⟨rfl, ?_⟩
  unfold get_district_data
  cases hc : _get_cached_district_data rows district_code year with
  | none =>
      simp [districtFetchPath, _save_district_data_to_cache]
  | some c =>
      have hstale : _is_cache_stale c.last_updated now = true := by
        unfold districtCacheMiss at hmiss
        rw [hc] at hmiss
        exact hmiss
      simp [hstale, districtFetchPath, _save_district_data_to_cache]

/-- Witness for C8 (amended) at a concrete store holding a stale row. -/
theorem save_failure_returns_absence_witness :
    get_district_data [rowStale] "AP001" 2024 100 (some payloadA) false =
      ([rowStale], none, true) :=
  (save_failure_returns_absence [rowStale] "AP001" 2024 100 payloadA (by decide)).2

/-- The table state resulting from a save call: the committed rows on
success, the rolled-back rows on failure. -/
def saveRows (r : Except (List DistrictData) (List DistrictData × DistrictData)) :
    List DistrictData :=
  match r with
  | Except.ok (rows, _) => rows
  | Except.error rows => rows

/-- Splitting a per-key row count over a cons cell. -/
theorem keyCount_cons (a : DistrictData) (l : List DistrictData) (c : String) (y : Int) :
    keyCount (a :: l) c y = keyCount l c y + (if keyMatch c y a = true then 1 else 0) := by
  by_cases h : keyMatch c y a = true
  · simp [keyCount, List.filter_cons, h, Nat.add_comm]
  · simp [keyCount, List.filter_cons, h]

/-- Splitting a per-key row count over an appended row. -/
theorem keyCount_append_single (l : List DistrictData) (r : DistrictData)
    (c : String) (y : Int) :
    keyCount (l ++ [r]) c y = keyCount l c y + (if keyMatch c y r = true then 1 else 0) := by
  by_cases h : keyMatch c y r = true
  · simp [keyCount, List.filter_append, List.filter_cons, h]
  · simp [keyCount, List.filter_append, List.filter_cons, h]

/-- Replacing the first key-matching row by one with the same key leaves every
per-key row count unchanged. -/
theorem keyCount_replaceFirst (rows : List DistrictData) (district_code : String)
    (year : Int) (f : DistrictData → DistrictData)
    (hf : ∀ e, keyMatch district_code year e = true →
      (f e).district_code = e.district_code ∧ (f e).year = e.year) :
    ∀ c y, keyCount (replaceFirst (keyMatch district_code year) f rows) c y =
      keyCount rows c y := by
  induction rows with
  | nil => intro c y; rfl
  | cons x xs ih =>
      intro c y
      unfold replaceFirst
      by_cases hx : keyMatch district_code year x = true
      · rw [if_pos hx, keyCount_cons, keyCount_cons]
        have hx' := hf x hx
        have hks : keyMatch c y (f x) = keyMatch c y x := by
          simp [keyMatch, hx'.1, hx'.2]
        rw [hks]
      · rw [if_neg hx, keyCount_cons, keyCount_cons, ih]

/-- Replacing the first matching row preserves the table's length. -/
theorem length_replaceFirst {α : Type} (p : α → Bool) (f : α → α) (l : List α) :
    (replaceFirst p f l).length = l.length := by
  induction l with
  | nil => rfl
  | cons x xs ih =>
      unfold replaceFirst
      by_cases hx : p x = true
      · rw [if_pos hx]
        simp
      · rw [if_neg hx]
        simp [ih]

/-- A key with no stored row has count zero. -/
theorem keyCount_eq_zero_of_none (rows : List DistrictData) (district_code : String)
    (year : Int) (h : _get_cached_district_data rows district_code year = none) :
    keyCount rows district_code year = 0 := by
  unfold _get_cached_district_data at h
  rw [List.find?_eq_none] at h
  unfold keyCount
  rw [List.filter_eq_nil_iff.mpr h]
  rfl

/-- A key whose lookup succeeds has at least one stored row. -/
theorem keyCount_pos_of_some (rows : List DistrictData) (district_code : String)
    (year : Int) (c : DistrictData)
    (h : _get_cached_district_data rows district_code year = some c) :
    1 ≤ keyCount rows district_code year := by
  unfold _get_cached_district_data at h
  have hmem : c ∈ rows := List.mem_of_find?_eq_some h
  have hp : keyMatch district_code year c = true := List.find?_some h
  have : c ∈ rows.filter (keyMatch district_code year) := List.mem_filter.mpr ⟨hmem, hp⟩
  unfold keyCount
  exact List.length_pos.mpr (List.ne_nil_of_mem this)

/-- Finding in an appended list whose first part has no match. -/
theorem find?_append_of_eq_none {α : Type} (p : α → Bool) (l l2 : List α)
    (h : l.find? p = none) : (l ++ l2).find? p = l2.find? p := by
  induction l with
  | nil => rfl
  | cons x xs ih =>
      by_cases hx : p x = true
      · rw [List.find?_cons_of_pos _ hx] at h
        exact absurd h (by simp)
      · rw [List.find?_cons_of_neg _ (by simpa using hx)] at h
        rw [List.cons_append, List.find?_cons_of_neg _ (by simpa using hx)]
        exact ih h

/-- One successful upsert: key uniqueness is preserved, the saved key now has
exactly one row, an existing row is overwritten in place (no growth), and the
stored row's `last_updated` is the save time. -/
theorem save_upsert_step (rows : List DistrictData) (p : DistrictPayload)
    (district_code : String) (year now : Int)
    (hcode : p.district_code = district_code) (hyear : p.year = year)
    (hinv : ∀ c y, keyCount rows c y ≤ 1) :
    (∀ c y, keyCount (saveRows
      (_save_district_data_to_cache rows p district_code year now true)) c y ≤ 1) ∧
    keyCount (saveRows
      (_save_district_data_to_cache rows p district_code year now true))
      district_code year = 1 ∧
    (_get_cached_district_data rows district_code year ≠ none →
      (saveRows (_save_district_data_to_cache rows p district_code year now true)).length =
        rows.length) ∧
    (_get_cached_district_data
      (saveRows (_save_district_data_to_cache rows p district_code year now true))
      district_code year).map (fun r => r.last_updated) = some (some now) := by
  cases hc : _get_cached_district_data rows district_code year with
  | none =>
      have hsave : _save_district_data_to_cache rows p district_code year now true =
          Except.ok (rows ++ [newDistrictRow p district_code year now],
            _format_district_data (newDistrictRow p district_code year now)) := by
        unfold _save_district_data_to_cache
        rw [hc]
        rfl
      have hrows : saveRows (_save_district_data_to_cache rows p district_code year now true) =
          rows ++ [newDistrictRow p district_code year now] := by
        rw [hsave]
        rfl
      have hkm : keyMatch district_code year (newDistrictRow p district_code year now) = true := by
        simp [keyMatch, newDistrictRow]
      have hzero : keyCount rows district_code year = 0 :=
        keyCount_eq_zero_of_none rows district_code year hc
      refine ⟨?_, ?_, ?_, ?_⟩
      · intro c y
        rw [hrows, keyCount_append_single]
        by_cases hk : keyMatch c y (newDistrictRow p district_code year now) = true
        · have hcy : district_code = c ∧ year = y := by
            simpa [keyMatch, newDistrictRow] using hk
          rw [if_pos hk, ← hcy.1, ← hcy.2, hzero]
        · rw [if_neg hk]
          simpa using hinv c y
      · rw [hrows, keyCount_append_single, hzero, if_pos hkm]
      · intro hne
        exact absurd rfl hne
      · rw [hrows]
        unfold _get_cached_district_data
        rw [find?_append_of_eq_none _ _ _ hc, List.find?_cons_of_pos _ hkm]
        rfl
  | some c =>
      have hsave : _save_district_data_to_cache rows p district_code year now true =
          Except.ok (replaceFirst (keyMatch district_code year)
              (fun e => { applyPayload e p with last_updated := some now }) rows,
            _format_district_data { applyPayload c p with last_updated := some now }) := by
        unfold _save_district_data_to_cache
        rw [hc]
        rfl
      have hrows : saveRows (_save_district_data_to_cache rows p district_code year now true) =
          replaceFirst (keyMatch district_code year)
            (fun e => { applyPayload e p with last_updated := some now }) rows := by
        rw [hsave]
        rfl
      have hf : ∀ e, keyMatch district_code year e = true →
          ({ applyPayload e p with last_updated := some now } : DistrictData).district_code =
            e.district_code ∧
          ({ applyPayload e p with last_updated := some now } : DistrictData).year = e.year := by
        intro e he
        have he' : e.district_code = district_code ∧ e.year = year := by
          simpa [keyMatch] using he
        constructor
        · simp [applyPayload, hcode, he'.1]
        · simp [applyPayload, hyear, he'.2]
      have hcounts := keyCount_replaceFirst rows district_code year
        (fun e => { applyPayload e p with last_updated := some now }) hf
      refine ⟨?_, ?_, ?_, ?_⟩
      · intro c' y'
        rw [hrows, hcounts]
        exact hinv c' y'
      · rw [hrows, hcounts]
        exact le_antisymm (hinv district_code year)
          (keyCount_pos_of_some rows district_code year c hc)
      · intro _
        rw [hrows]
        exact length_replaceFirst _ _ rows
      · rw [hrows]
        unfold _get_cached_district_data
        rw [find?_replaceFirst _ _ rows (by
          intro a _
          simp [keyMatch, applyPayload, hcode, hyear])]
        unfold _get_cached_district_data at hc
        rw [hc]
        rfl

/-- C9: the upsert keeps at most one row per (district_code, year); saving
for a key that already has a row overwrites it in place (no second row, no
growth), and applying the same payload at two increasing times leaves exactly
one row for the key whose `last_updated` is the strictly later time. -/
theorem upsert_key_uniqueness (rows : List DistrictData) (p : DistrictPayload)
    (district_code : String) (year t1 t2 : Int)
    (hcode : p.district_code = district_code) (hyear : p.year = year)
    (hinv : ∀ c y, keyCount rows c y ≤ 1) (ht : t1 < t2) :
    let rows1 := saveRows (_save_district_data_to_cache rows p district_code year t1 true)
    let rows2 := saveRows (_save_district_data_to_cache rows1 p district_code year t2 true)
    (∀ c y, keyCount rows1 c y ≤ 1) ∧
    (∀ c y, keyCount rows2 c y ≤ 1) ∧
    keyCount rows1 district_code year = 1 ∧
    keyCount rows2 district_code year = 1 ∧
    rows2.length = rows1.length ∧
    (_get_cached_district_data rows1 district_code year).map (fun r => r.last_updated) =
      some (some t1) ∧
    (_get_cached_district_data rows2 district_code year).map (fun r => r.last_updated) =
      some (some t2) ∧
    t1 < t2 := by
  intro rows1 rows2
  obtain ⟨h1inv, h1key, _, h1upd⟩ :=
    save_upsert_step rows p district_code year t1 hcode hyear hinv
  obtain ⟨h2inv, h2key, h2len, h2upd⟩ :=
    save_upsert_step rows1 p district_code year t2 hcode hyear h1inv
  refine ⟨h1inv, h2inv, h1key, h2key, ?_, h1upd, h2upd, ht⟩
  apply h2len
  intro hnone
  rw [hnone] at h1upd
  simp at h1upd

/-- Witness for C9 at a concrete empty store and two save times. -/
theorem upsert_key_uniqueness_witness :
    keyCount (saveRows (_save_district_data_to_cache
      (saveRows (_save_district_data_to_cache [] payloadA "AP001" 2024 1 true))
      payloadA "AP001" 2024 2 true)) "AP001" 2024 = 1 ∧
    (_get_cached_district_data (saveRows (_save_district_data_to_cache
      (saveRows (_save_district_data_to_cache [] payloadA "AP001" 2024 1 true))
      payloadA "AP001" 2024 2 true)) "AP001" 2024).map (fun r => r.last_updated) =
      some (some 2) := by
  have h := upsert_key_uniqueness [] payloadA "AP001" 2024 1 2 rfl rfl
    (fun _ _ => Nat.zero_le 1) (by norm_num)
  exact ⟨h.2.2.2.1, h.2.2.2.2.2.2.1⟩

/-- C10: when the cached stats are absent or stale and the recomputation
succeeds, `get_district_stats` returns the freshly recomputed stats dict even
if persisting it fails: the stats save swallows the commit error after
rolling back (the stats table is unchanged), and no error reaches the caller. -/
theorem stats_write_failure_ignored (dataRows : List DistrictData)
    (statsRows : List DistrictStats) (district_code : String) (now : Int)
    (hmiss : statsCacheMiss statsRows district_code now = true)
    (hcalc : (_calculate_district_stats dataRows district_code now).isSome = true) :
    get_district_stats dataRows statsRows district_code now false =
      (statsRows, (_calculate_district_stats dataRows district_code now).map
        StatsResponse.freshStats) := by
  unfold get_district_stats
  cases hf : statsRows.find? (fun s => s.district_code == district_code) with
  | none =>
      cases hs : _calculate_district_stats dataRows district_code now with
      | none =>
          rw [hs] at hcalc
          simp at hcalc
      | some s => simp [_save_district_stats_to_cache]
  | some cs =>
      have hstale : _is_cache_stale cs.last_updated now = true := by
        unfold statsCacheMiss at hmiss
        rw [hf] at hmiss
        exact hmiss
      cases hs : _calculate_district_stats dataRows district_code now with
      | none =>
          rw [hs] at hcalc
          simp at hcalc
      | some s => simp [hstale, _save_district_stats_to_cache]

/-- Witness for C10 at a concrete store with one data row and no stats row. -/
theorem stats_write_failure_ignored_witness :
    get_district_stats [rowA] [] "AP001" 5 false =
      ([], (_calculate_district_stats [rowA] "AP001" 5).map StatsResponse.freshStats) :=
  stats_write_failure_ignored [rowA] [] "AP001" 5 rfl rfl
